import Mathlib

/-!
Verification of the campus-portal approval workflow and AR projection math.

The definitions below are a shallow embedding of:
  * the approval-decision processor (edge function `process-approval`):
    its in-memory sliding-window rate limiter, input validation, the
    `pending_approvals` lookup with 30-day expiry, and the two sequential
    status writes;
  * the approval-request issuer (edge function `send-approval-email`):
    input validation, auth resolution, the pending-approval insert, the
    tolerated entity-update failure, HTML sanitisation and the composed
    reviewer email;
  * the AR view geometry (`ARView.tsx`): bearing, relative angle
    normalisation, the field-of-view visibility cutoff and the screen
    placement formulas.

Timestamps are modelled as milliseconds since the epoch (`Int`, as
`Date.now()` yields).  Exact numeric code (the projector's placement
arithmetic) is modelled over `Rat`; the trigonometric bearing is modelled
over `Real` with `Complex.arg` playing the role of `Math.atan2`.
Database tables are lists of rows; the fallibility of each remote write is
made explicit with a `Bool` parameter saying whether that write succeeds.
-/

/-- HTTP-level response body, as built by the handlers: either
`\x7b error: msg \x7d` or `\x7b success: true, message? \x7d`. -/
inductive RespBody where
  | err (msg : String)
  | ok (message : Option String)
  deriving DecidableEq, Repr

/-- An HTTP response: status code plus JSON body. -/
structure Resp where
  status : Nat
  body : RespBody
  deriving DecidableEq, Repr

/-- A row of the `pending_approvals` table. `status` is one of
`"pending"`, `"approved"`, `"rejected"`; `created_at` is a millisecond
timestamp. -/
structure PendingApproval where
  id : Nat
  item_type : String
  item_id : String
  submitted_by : String
  faculty_email : String
  approval_token : String
  status : String
  created_at : Int
  deriving DecidableEq, Repr

/-- A row of one of the reviewable-entity tables (`shops` or `clubs`);
`table` records which table the row lives in. -/
structure EntityRow where
  table : String
  id : String
  status : String
  deriving DecidableEq, Repr

/-! ## Rate limiter (process-approval lines 14-31) -/

def RATE_LIMIT_WINDOW_MS : Int := 60000

def MAX_REQUESTS_PER_WINDOW : Nat := 10

/-- The `checkRateLimit` step for a single key: given the stored timestamp list and
the current time, returns whether the request is allowed together with the
list stored back in the map.  On rejection the map is not written, so the
stored list stays as it was. -/
def checkRateLimit (requests : List Int) (now : Int) : Bool × List Int :=
  let recentRequests := requests.filter (fun t => now - t < RATE_LIMIT_WINDOW_MS)
  if recentRequests.length ≥ MAX_REQUESTS_PER_WINDOW then
    (false, requests)
  else
    (true, recentRequests ++ [now])

/-- Run a sequence of requests (their arrival times, in order) against one
rate-limiter key, starting from the given stored list; returns the final
stored list and the per-request accept/reject verdicts. -/
def runRequests (state : List Int) : List Int → List Int × List Bool
  | [] => (state, [])
  | t :: rest =>
    let step := checkRateLimit state t
    let tail := runRequests step.2 rest
    (tail.1, step.1 :: tail.2)

/-! ## Input validation (process-approval lines 33-47) -/

def isHexDigit (c : Char) : Bool :=
  (('0' ≤ c ∧ c ≤ '9') ∨ ('a' ≤ c ∧ c ≤ 'f') ∨ ('A' ≤ c ∧ c ≤ 'F'))

/-- The UUID shape test `/^[0-9a-f]\x7b8\x7d-[0-9a-f]\x7b4\x7d-[0-9a-f]\x7b4\x7d-[0-9a-f]\x7b4\x7d-[0-9a-f]\x7b12\x7d$/i`:
36 characters, hyphens at offsets 8, 13, 18, 23, hex digits elsewhere. -/
def isUuid (s : String) : Bool :=
  s.data.length == 36 &&
    (s.data.enum.all fun p =>
      if p.1 == 8 || p.1 == 13 || p.1 == 18 || p.1 == 23 then p.2 == '-'
      else isHexDigit p.2)

/-- The `validateInput` check of the decision processor: the token must be a
nonempty string of at most 100 characters in UUID shape, and the action
must be `approve` or `reject`. -/
def validateInput (token action : String) : Bool :=
  decide (0 < token.length) && decide (token.length ≤ 100) && isUuid token &&
    (action == "approve" || action == "reject")

/-! ## Decision processor core (process-approval lines 84-146) -/

def THIRTY_DAYS_MS : Int := 30 * 24 * 60 * 60 * 1000

/-- The lookup of process-approval lines 85-91: the row must carry the
token, still be `pending`, and have `created_at ≥ now - 30 days`. -/
def findPending (db : List PendingApproval) (token : String) (now : Int) :
    Option PendingApproval :=
  db.find? fun r =>
    r.approval_token == token && r.status == "pending" &&
      decide (now - THIRTY_DAYS_MS ≤ r.created_at)

def notFoundResp : Resp :=
  ⟨400, .err "This approval link is invalid, expired, or already processed."⟩

def processingFailedResp : Resp :=
  ⟨500, .err "Processing failed. Please try again."⟩

/-- Outcome of a decision request: the response plus the post-state of the
`pending_approvals` table and of the entity tables. -/
structure DecisionOut where
  resp : Resp
  db : List PendingApproval
  ents : List EntityRow
  deriving Repr

/-- The core of the decision handler, after rate limiting and validation:
look up the live row; on a match write the new status to the matched
`pending_approvals` row, then write the same status to the referenced
entity row.  `apOk` (resp. `entOk`) says whether the first (resp. second)
remote write succeeds; a failed write leaves its table unchanged and
returns the 500 response, exactly as lines 108-136 do. -/
def processDecision (db : List PendingApproval) (ents : List EntityRow)
    (token action : String) (now : Int) (apOk entOk : Bool) : DecisionOut :=
  match findPending db token now with
  | none => ⟨notFoundResp, db, ents⟩
  | some approval =>
    let newStatus := if action == "approve" then "approved" else "rejected"
    if apOk = false then ⟨processingFailedResp, db, ents⟩
    else
      let db' := db.map fun r =>
        if r.id == approval.id then { r with status := newStatus } else r
      if entOk = false then ⟨processingFailedResp, db', ents⟩
      else
        let tableName := if approval.item_type == "shop" then "shops" else "clubs"
        let ents' := ents.map fun e =>
          if e.table == tableName && e.id == approval.item_id then
            { e with status := newStatus } else e
        let kindName := if approval.item_type == "shop" then "Shop" else "Club"
        ⟨⟨200, .ok (some (kindName ++ " has been " ++ newStatus))⟩, db', ents'⟩

def rateLimitedResp : Resp :=
  ⟨429, .err "Too many requests. Please try again later."⟩

def invalidResp : Resp :=
  ⟨400, .err "Invalid request"⟩

/-- Outcome of the full decision handler, including the rate-limiter list
stored back for the caller's key. -/
structure HandlerOut where
  resp : Resp
  db : List PendingApproval
  ents : List EntityRow
  rl : List Int
  deriving Repr

/-- The decision handler for one request: rate limiting keyed by the
caller (its stored timestamp list is `rl`), then input validation, then
the core processing. -/
def decisionHandler (db : List PendingApproval) (ents : List EntityRow)
    (rl : List Int) (token action : String) (now : Int) (apOk entOk : Bool) :
    HandlerOut :=
  let gate := checkRateLimit rl now
  if gate.1 = false then ⟨rateLimitedResp, db, ents, gate.2⟩
  else if validateInput token action = false then ⟨invalidResp, db, ents, gate.2⟩
  else
    let out := processDecision db ents token action now apOk entOk
    ⟨out.resp, out.db, out.ents, gate.2⟩

/-- One decision-processor invocation, as seen by the shared state: the
request data plus whether each of the two writes would succeed. -/
structure DecisionReq where
  token : String
  action : String
  now : Int
  apOk : Bool
  entOk : Bool

/-- Shared state threaded through a sequence of invocations. -/
structure DecisionState where
  db : List PendingApproval
  ents : List EntityRow
  rl : List Int

def stepDecision (st : DecisionState) (q : DecisionReq) : DecisionState :=
  let out := decisionHandler st.db st.ents st.rl q.token q.action q.now q.apOk q.entOk
  ⟨out.db, out.ents, out.rl⟩

/-- Run a whole sequence of decision requests. -/
def runDecisions (st : DecisionState) : List DecisionReq → DecisionState
  | [] => st
  | q :: rest => runDecisions (stepDecision st q) rest

/-! ## Approval-request issuer (send-approval-email) -/

/-- The JSON body of an issuer request, after JSON parsing. -/
structure IssuerInput where
  itemType : String
  itemId : String
  itemName : String
  submitterName : String
  submitterEmail : String
  facultyEmail : String
  description : Option String
  deriving DecidableEq, Repr

/-- The email-shape test of the regex `/^[^\s@]+@[^\s@]+\.[^\s@]+$/`:
a nonempty run of non-whitespace non-at characters, one at sign, then a
domain with no whitespace or at sign that has a dot neither first nor
last. -/
def validEmail (s : String) : Bool :=
  let cs := s.data
  let name := cs.takeWhile fun c => c != '@'
  match cs.dropWhile fun c => c != '@' with
  | [] => false
  | _ :: dom =>
    !name.isEmpty && name.all (fun c => !c.isWhitespace) &&
      !dom.isEmpty && dom.all (fun c => !c.isWhitespace && c != '@') &&
      (dom.enum.any fun p =>
        p.2 == '.' && decide (1 ≤ p.1) && decide (p.1 + 2 ≤ dom.length))

/-- The `validateApprovalEmailInput` checks of send-approval-email
lines 20-76 on an already-parsed body. -/
def validateApprovalEmailInput (d : IssuerInput) : Bool :=
  (d.itemType == "shop" || d.itemType == "club") &&
    isUuid d.itemId &&
    decide (0 < d.itemName.length) && decide (d.itemName.length ≤ 200) &&
    decide (0 < d.submitterName.length) && decide (d.submitterName.length ≤ 200) &&
    validEmail d.submitterEmail && decide (d.submitterEmail.length ≤ 255) &&
    validEmail d.facultyEmail && decide (d.facultyEmail.length ≤ 255) &&
    (match d.description with
     | none => true
     | some s => decide (s.length ≤ 2000))

/-- Replace every occurrence of the character `c` by the string `rep`;
this is what each single `.replace(/c/g, rep)` step does. -/
def replaceChar (c : Char) (rep : List Char) (s : List Char) : List Char :=
  (s.map fun d => if d = c then rep else [d]).flatten

/-- The `sanitizeForHtml` chain of send-approval-email lines 79-86: first
ampersands, then angle brackets, then double and single quotes, each
replaced globally by its HTML entity. -/
def sanitizeForHtml (s : List Char) : List Char :=
  replaceChar '\'' "&#x27;".data <| replaceChar '"' "&quot;".data <|
    replaceChar '>' "&gt;".data <| replaceChar '<' "&lt;".data <|
      replaceChar '&' "&amp;".data s

/-- String-level wrapper of `sanitizeForHtml`. -/
def sanitizeForHtmlS (s : String) : String :=
  ⟨sanitizeForHtml s.data⟩

/-- What a single character contributes to the sanitised output: the five
special characters map to their HTML entities, anything else to itself. -/
def entityOf (c : Char) : List Char :=
  if c = '&' then "&amp;".data
  else if c = '<' then "&lt;".data
  else if c = '>' then "&gt;".data
  else if c = '"' then "&quot;".data
  else if c = '\'' then "&#x27;".data
  else [c]

/-- Executable substring test (used to decide `List.IsInfix` facts about
the composed email): does `needle` occur contiguously in the second list? -/
def hasSub (needle : List Char) : List Char → Bool
  | [] => needle.isEmpty
  | c :: t => needle.isPrefixOf (c :: t) || hasSub needle t

/-- The reviewer-email HTML body of send-approval-email lines 154-223:
user-supplied fields are sanitised (lines 170-174) and interpolated into
the fixed template. -/
def emailHtml (itemType itemName submitterName submitterEmail : String)
    (description : Option String) (baseUrl approvalToken : String) : String :=
  let safeItemName := sanitizeForHtmlS itemName
  let safeSubmitterName := sanitizeForHtmlS submitterName
  let safeSubmitterEmail := sanitizeForHtmlS submitterEmail
  let safeDescription :=
    match description with
    | some d => sanitizeForHtmlS d
    | none => ""
  let approveUrl := baseUrl ++ "/approve?token=" ++ approvalToken ++ "&action=approve"
  let rejectUrl := baseUrl ++ "/approve?token=" ++ approvalToken ++ "&action=reject"
  let kind := if itemType == "shop" then "Shop" else "Club"
  "\n          <div style=\"font-family: Arial, sans-serif; max-width: 600px; margin: 0 auto;\">" ++
    "\n            <h1 style=\"color: #1a365d;\">New " ++ kind ++ " Submission</h1>" ++
    "\n            <p>Dear Faculty,</p>" ++
    "\n            <p>A new " ++ itemType ++ " has been submitted for approval on the MITS Campus Portal.</p>" ++
    "\n            " ++
    "\n            <div style=\"background: #f7fafc; padding: 20px; border-radius: 8px; margin: 20px 0;\">" ++
    "\n              <h2 style=\"margin-top: 0; color: #2d3748;\">" ++ safeItemName ++ "</h2>" ++
    "\n              <p><strong>Submitted by:</strong> " ++ safeSubmitterName ++ " (" ++ safeSubmitterEmail ++ ")</p>" ++
    "\n              " ++
    (if safeDescription.length != 0 then
      "<p><strong>Description:</strong> " ++ safeDescription ++ "</p>"
    else "") ++
    "\n            </div>" ++
    "\n            " ++
    "\n            <p>Please review and take action:</p>" ++
    "\n            " ++
    "\n            <div style=\"margin: 30px 0;\">" ++
    "\n              <a href=\"" ++ approveUrl ++ "\" style=\"background: #38a169; color: white; padding: 12px 24px; text-decoration: none; border-radius: 6px; margin-right: 10px;\">" ++
    "\n                ✓ Approve" ++
    "\n              </a>" ++
    "\n              <a href=\"" ++ rejectUrl ++ "\" style=\"background: #e53e3e; color: white; padding: 12px 24px; text-decoration: none; border-radius: 6px;\">" ++
    "\n                ✗ Reject" ++
    "\n              </a>" ++
    "\n            </div>" ++
    "\n            " ++
    "\n            <p style=\"color: #718096; font-size: 14px;\">" ++
    "\n              If the buttons don\x27t work, copy and paste these links:<br>" ++
    "\n              Approve: " ++ approveUrl ++ "<br>" ++
    "\n              Reject: " ++ rejectUrl ++
    "\n            </p>" ++
    "\n            " ++
    "\n            <p style=\"color: #a0aec0; font-size: 12px; margin-top: 20px;\">" ++
    "\n              This approval link will expire in 30 days." ++
    "\n            </p>" ++
    "\n            " ++
    "\n            <hr style=\"border: none; border-top: 1px solid #e2e8f0; margin: 30px 0;\">" ++
    "\n            <p style=\"color: #a0aec0; font-size: 12px;\">MITS Campus Portal - Madhav Institute of Technology & Science, Gwalior</p>" ++
    "\n          </div>" ++
    "\n        "

def issuerInvalidResp : Resp := ⟨400, .err "Invalid request"⟩

def unauthorizedResp : Resp := ⟨401, .err "Unauthorized"⟩

def issuerFailedResp : Resp := ⟨500, .err "Failed to process request. Please try again."⟩

def DEFAULT_BASE_URL : String :=
  "https://36014776-bc14-4ae2-985e-9ec7a851b4ba.lovableproject.com"

/-- Observable outcome of one issuer request: the response, the
`pending_approvals` row inserted (if the insert succeeded), whether the
entity-table update succeeded, and the composed email body if dispatch
was reached. -/
structure IssuerOut where
  resp : Resp
  inserted : Option PendingApproval
  entityUpdated : Bool
  emailBody : Option String
  deriving DecidableEq, Repr

/-- The send-approval-email handler (lines 88-244): validate the body,
resolve the caller from the bearer credential (`userId`), insert the
pending-approval row (aborting with 500 if that write fails), attempt the
entity update (its failure is only logged), then compose and dispatch the
reviewer email and answer 200.  `approvalToken` stands for the generated
`crypto.randomUUID()`, `insertOk` / `updateOk` for the success of the two
database writes, `origin` for the request's origin header. -/
def sendApprovalEmailHandler (input : IssuerInput) (userId : Option String)
    (approvalToken : String) (insertOk updateOk : Bool) (origin : Option String)
    (now : Int) (newId : Nat) : IssuerOut :=
  if validateApprovalEmailInput input = false then
    ⟨issuerInvalidResp, none, false, none⟩
  else
    match userId with
    | none => ⟨unauthorizedResp, none, false, none⟩
    | some uid =>
      if insertOk = false then ⟨issuerFailedResp, none, false, none⟩
      else
        let row : PendingApproval :=
          ⟨newId, input.itemType, input.itemId, uid, input.facultyEmail,
            approvalToken, "pending", now⟩
        let baseUrl := origin.getD DEFAULT_BASE_URL
        ⟨⟨200, .ok none⟩, some row, updateOk,
          some (emailHtml input.itemType input.itemName input.submitterName
            input.submitterEmail input.description baseUrl approvalToken)⟩

/-! ## AR marker projector (ARView.tsx lines 47-57 and 126-148) -/

/-- Relative angle of ARView lines 133-135: subtract the device heading
from the bearing, then fold into range by at most one addition and one
subtraction of 360. -/
def relativeAngle (bearing heading : ℚ) : ℚ :=
  let ra := bearing - heading
  let ra := if ra < -180 then ra + 360 else ra
  if ra > 180 then ra - 360 else ra

/-- A projected marker: screen position in viewport percent plus the
distance carried along. -/
structure Marker where
  x : ℚ
  y : ℚ
  distance : ℚ
  deriving DecidableEq, Repr

/-- The projection of `getMarkerPosition` (ARView lines 126-148) from the
already-computed bearing and distance: targets more than 60 degrees off
the device heading give no marker, the rest are placed at
`x = 50 + (ra / 60) * 40` and `y = max(20, min(80, 30 + (d / 500) * 40))`. -/
def getMarkerPosition (bearing distance heading : ℚ) : Option Marker :=
  let ra := relativeAngle bearing heading
  if |ra| > 60 then none
  else
    let xPercent := 50 + (ra / 60) * 40
    let maxDistance : ℚ := 500
    let yPercent := max 20 (min 80 (30 + (distance / maxDistance) * 40))
    some ⟨xPercent, yPercent, distance⟩

/-- Modelled from the spec: `clamp(v, lo, hi)` as written in section 4.2,
the value folded into `[lo, hi]`. -/
def clamp (v lo hi : ℚ) : ℚ :=
  max lo (min hi v)

/-- The two-argument arctangent `Math.atan2(y, x)`, with value in
`(-pi, pi]`, modelled by the complex argument of `x + y i`. -/
noncomputable def atan2 (y x : ℝ) : ℝ :=
  Complex.arg ⟨x, y⟩

/-- The JavaScript remainder operator `x % m` for a positive modulus:
`x - m * trunc(x / m)`, truncation rounding toward zero. -/
noncomputable def jsMod (x m : ℝ) : ℝ :=
  if 0 ≤ x then x - m * ⌊x / m⌋ else x - m * ⌈x / m⌉

/-- The `getBearing` of ARView lines 47-57: initial bearing from point 1
to point 2 via `atan2`, converted to degrees and normalised by
`(deg + 360) % 360`. -/
noncomputable def getBearing (lat1 lon1 lat2 lon2 : ℝ) : ℝ :=
  let p1 := lat1 * Real.pi / 180
  let p2 := lat2 * Real.pi / 180
  let dl := (lon2 - lon1) * Real.pi / 180
  let y := Real.sin dl * Real.cos p2
  let x := Real.cos p1 * Real.sin p2 - Real.sin p1 * Real.cos p2 * Real.cos dl
  let theta := atan2 y x
  jsMod (theta * 180 / Real.pi + 360) 360

/-- The relative-angle normalisation of ARView lines 133-135, over the
reals (the form used downstream of the real-valued bearing). -/
noncomputable def relativeAngleR (bearing heading : ℝ) : ℝ :=
  let ra := bearing - heading
  let ra := if ra < -180 then ra + 360 else ra
  if ra > 180 then ra - 360 else ra

/-! ## Rate limiter properties -/

theorem runRequests_accepts_under_cap (times : List Int) :
    ∀ state : List Int, state.length + times.length ≤ MAX_REQUESTS_PER_WINDOW →
      ∀ b ∈ (runRequests state times).2, b = true := by
  induction times with
  | nil =>
    intro state _ b hb
    simp [runRequests] at hb
  | cons t rest ih =>
    intro state hlen b hb
    have hfil : ((state.filter fun s => t - s < RATE_LIMIT_WINDOW_MS)).length ≤ state.length :=
      List.length_filter_le _ _
    have hlt : ((state.filter fun s => t - s < RATE_LIMIT_WINDOW_MS)).length <
        MAX_REQUESTS_PER_WINDOW := by
      simp only [List.length_cons] at hlen
      omega
    have hstep : checkRateLimit state t =
        (true, (state.filter fun s => t - s < RATE_LIMIT_WINDOW_MS) ++ [t]) := by
      simp only [checkRateLimit, ge_iff_le]
      rw [if_neg (not_le.2 hlt)]
    simp only [runRequests, hstep, List.mem_cons] at hb
    rcases hb with rfl | hb
    · rfl
    · refine ih _ ?_ b hb
      simp only [List.length_append, List.length_cons, List.length_nil] at *
      omega

/-- C5: for a fixed rate-limiter key, each of up to 10 requests inside one
60-second window is accepted; a request finding 10 stored timestamps in the
trailing 60 seconds is rejected and nothing is recorded; and a request
finding fewer than 10 is accepted and recorded. -/
theorem rate_limiter_sliding_window :
    (∀ (t0 : Int) (times : List Int),
        (∀ t ∈ times, t0 ≤ t ∧ t - t0 < RATE_LIMIT_WINDOW_MS) →
        times.length ≤ MAX_REQUESTS_PER_WINDOW →
        ∀ b ∈ (runRequests [] times).2, b = true) ∧
    (∀ (state : List Int) (now : Int),
        MAX_REQUESTS_PER_WINDOW ≤
            ((state.filter fun t => now - t < RATE_LIMIT_WINDOW_MS)).length →
        checkRateLimit state now = (false, state)) ∧
    (∀ (state : List Int) (now : Int),
        ((state.filter fun t => now - t < RATE_LIMIT_WINDOW_MS)).length <
            MAX_REQUESTS_PER_WINDOW →
        checkRateLimit state now =
          (true, (state.filter fun t => now - t < RATE_LIMIT_WINDOW_MS) ++ [now])) := by
  refine ⟨fun t0 times _ hlen => runRequests_accepts_under_cap times [] (by simpa using hlen),
    fun state now hcap => ?_, fun state now hfree => ?_⟩
  · simp only [checkRateLimit, ge_iff_le]
    rw [if_pos hcap]
  · simp only [checkRateLimit, ge_iff_le]
    rw [if_neg (not_le.2 hfree)]

/-- Witness for C5 at concrete inputs: ten requests at times 0..9 are all
accepted; an 11th at time 10 against the full stored list is rejected with
the list unchanged; at time 60001 only eight stored stamps remain recent,
so the request is accepted and recorded. -/
theorem rate_limiter_sliding_window_witness :
    (∀ b ∈ (runRequests [] [0, 1, 2, 3, 4, 5, 6, 7, 8, 9]).2, b = true) ∧
    checkRateLimit [0, 1, 2, 3, 4, 5, 6, 7, 8, 9] 10 =
      (false, [0, 1, 2, 3, 4, 5, 6, 7, 8, 9]) ∧
    checkRateLimit [0, 1, 2, 3, 4, 5, 6, 7, 8, 9] 60001 =
      (true, ([0, 1, 2, 3, 4, 5, 6, 7, 8, 9].filter
        fun t => (60001 : Int) - t < RATE_LIMIT_WINDOW_MS) ++ [60001]) :=
  ⟨rate_limiter_sliding_window.1 0 [0, 1, 2, 3, 4, 5, 6, 7, 8, 9] (by decide) (by decide),
    rate_limiter_sliding_window.2.1 _ _ (by decide),
    rate_limiter_sliding_window.2.2 _ _ (by decide)⟩

/-! ## HTML sanitisation properties -/

theorem replaceChar_append (c : Char) (rep s t : List Char) :
    replaceChar c rep (s ++ t) = replaceChar c rep s ++ replaceChar c rep t := by
  unfold replaceChar
  rw [List.map_append, List.flatten_append]

theorem sanitizeForHtml_append (s t : List Char) :
    sanitizeForHtml (s ++ t) = sanitizeForHtml s ++ sanitizeForHtml t := by
  unfold sanitizeForHtml
  simp only [replaceChar_append]

theorem sanitizeForHtml_single (d : Char) : sanitizeForHtml [d] = entityOf d := by
  by_cases h1 : d = '&'
  · subst h1; decide
  · by_cases h2 : d = '<'
    · subst h2; decide
    · by_cases h3 : d = '>'
      · subst h3; decide
      · by_cases h4 : d = '"'
        · subst h4; decide
        · by_cases h5 : d = '\''
          · subst h5; decide
          · simp [sanitizeForHtml, replaceChar, entityOf, h1, h2, h3, h4, h5]

/-- C6: the sanitiser replaces every occurrence of the five special
characters by its HTML entity (character by character, with no
double-escaping from the chained global replacements), and in the email
composed for a submitter named with a script tag the composed body
contains the escaped entities and never the raw markup. -/
theorem hasSub_iff (needle : List Char) :
    ∀ hay : List Char, hasSub needle hay = true ↔ needle <:+: hay := by
  intro hay
  induction hay with
  | nil =>
    simp [hasSub, List.isEmpty_iff]
  | cons c t ih =>
    simp [hasSub, List.infix_cons_iff, ih]

set_option maxRecDepth 60000 in
set_option maxHeartbeats 1000000 in
/-- C6: the sanitiser replaces every occurrence of the five special
characters by its HTML entity (character by character, with no
double-escaping from the chained global replacements), and in the email
composed for a submitter named with a script tag the body contains the
escaped entities and never the raw markup. -/
theorem email_html_escaping :
    (∀ s : List Char, sanitizeForHtml s = (s.map entityOf).flatten) ∧
    (¬ ("<script>".data <:+: (emailHtml "club" "Chess" "<script>alert(1)</script>"
          "a@b.co" none "https://portal.example"
          "123e4567-e89b-12d3-a456-426614174000").data) ∧
      ("&lt;script&gt;".data <:+: (emailHtml "club" "Chess" "<script>alert(1)</script>"
          "a@b.co" none "https://portal.example"
          "123e4567-e89b-12d3-a456-426614174000").data)) := by
  refine ⟨fun s => ?_, fun h => ?_, (hasSub_iff _ _).1 (by decide)⟩
  · induction s with
    | nil => rfl
    | cons d s ih =>
      have hsplit : (d :: s) = [d] ++ s := rfl
      rw [hsplit, sanitizeForHtml_append, sanitizeForHtml_single, ih]
      simp
  · have hfalse : hasSub "<script>".data (emailHtml "club" "Chess"
        "<script>alert(1)</script>" "a@b.co" none "https://portal.example"
        "123e4567-e89b-12d3-a456-426614174000").data = false := by decide
    rw [← hasSub_iff] at h
    rw [hfalse] at h
    cases h

/-! ## AR projector properties -/

/-- C7: a target is projected to a marker exactly when the normalised
relative angle has absolute value at most 60 degrees (the boundary 60 is
visible); beyond 60 degrees the projector yields no output. -/
theorem marker_visibility_boundary (bearing distance heading : ℚ) :
    (|relativeAngle bearing heading| ≤ 60 →
      (getMarkerPosition bearing distance heading).isSome = true) ∧
    (60 < |relativeAngle bearing heading| →
      getMarkerPosition bearing distance heading = none) := by
  constructor
  · intro h
    simp only [getMarkerPosition]
    rw [if_neg (not_lt.2 h)]
    rfl
  · intro h
    simp only [getMarkerPosition]
    rw [if_pos h]

/-- Witness for C7: a target at exactly 60 degrees relative angle is
visible. -/
theorem marker_visibility_boundary_witness :
    (getMarkerPosition 60 100 0).isSome = true :=
  (marker_visibility_boundary 60 100 0).1 (by norm_num [relativeAngle])

/-- C9 counterexample: two visible targets at distances 0 and 500 from
the same spot get vertical positions 30 and 70; the nearer one's `y` is
NOT greater than or equal to the farther one's, so nearer targets do not
render farther down the screen. -/
theorem marker_vertical_claim_counterexample :
    getMarkerPosition 0 0 0 = some ⟨50, 30, 0⟩ ∧
    getMarkerPosition 0 500 0 = some ⟨50, 70, 500⟩ ∧
    (0 : ℚ) < 500 ∧ ¬ ((70 : ℚ) ≤ 30) := by
  refine ⟨by norm_num [getMarkerPosition, relativeAngle],
    by norm_num [getMarkerPosition, relativeAngle], by norm_num, by norm_num⟩

/-- C9 (amended): every visible marker's vertical position is
`clamp(30 + (distance / 500) * 40, 20, 80)` percent from the top, and the
placement is monotone: of two visible targets the nearer one is at least
as far UP the screen (its `y` is less than or equal to the other's). -/
theorem marker_vertical_position
    (b1 d1 h1 b2 d2 h2 : ℚ) (m1 m2 : Marker)
    (hm1 : getMarkerPosition b1 d1 h1 = some m1)
    (hm2 : getMarkerPosition b2 d2 h2 = some m2)
    (hd : d1 ≤ d2) :
    m1.y = clamp (30 + (d1 / 500) * 40) 20 80 ∧
    m2.y = clamp (30 + (d2 / 500) * 40) 20 80 ∧
    m1.y ≤ m2.y := by
  have hy : ∀ (b d h : ℚ) (m : Marker), getMarkerPosition b d h = some m →
      m.y = clamp (30 + (d / 500) * 40) 20 80 := by
    intro b d h m hm
    simp only [getMarkerPosition] at hm
    by_cases hra : |relativeAngle b h| > 60
    · rw [if_pos hra] at hm
      cases hm
    · rw [if_neg hra] at hm
      obtain rfl := (Option.some_inj.1 hm).symm
      rfl
  have h1y := hy _ _ _ _ hm1
  have h2y := hy _ _ _ _ hm2
  refine ⟨h1y, h2y, ?_⟩
  rw [h1y, h2y]
  unfold clamp
  have hdiv : 30 + (d1 / 500) * 40 ≤ 30 + (d2 / 500) * 40 := by linarith
  exact max_le_max (le_refl 20) (min_le_min (le_refl 80) hdiv)

/-- Witness for C9 (amended) at distances 0 and 500: the nearer marker
sits at 30 percent, the farther at 70 percent, and 30 is at most 70. -/
theorem marker_vertical_position_witness :
    (⟨50, 30, 0⟩ : Marker).y = clamp (30 + ((0 : ℚ) / 500) * 40) 20 80 ∧
    (⟨50, 70, 500⟩ : Marker).y = clamp (30 + ((500 : ℚ) / 500) * 40) 20 80 ∧
    (⟨50, 30, 0⟩ : Marker).y ≤ (⟨50, 70, 500⟩ : Marker).y :=
  marker_vertical_position 0 0 0 0 500 0 ⟨50, 30, 0⟩ ⟨50, 70, 500⟩
    (by norm_num [getMarkerPosition, relativeAngle])
    (by norm_num [getMarkerPosition, relativeAngle]) (by norm_num)

/-! ## Bearing range -/

theorem atan2_gt_neg_pi (y x : ℝ) : -Real.pi < atan2 y x :=
  (Set.mem_Ioc.1 (Complex.arg_mem_Ioc _)).1

theorem jsMod_nonneg_mem (x : ℝ) (hx : 0 ≤ x) : jsMod x 360 ∈ Set.Ico (0 : ℝ) 360 := by
  simp only [jsMod]
  rw [if_pos hx]
  have hfr : x - 360 * ⌊x / 360⌋ = 360 * Int.fract (x / 360) := by
    unfold Int.fract
    ring
  rw [Set.mem_Ico, hfr]
  constructor
  · exact mul_nonneg (by norm_num) (Int.fract_nonneg _)
  · have := Int.fract_lt_one (x / 360)
    nlinarith

/-- C8: the bearing is always in `[0, 360)`, and for any bearing in
`[0, 360)` and device heading in `[0, 360]` the relative angle after at
most one 360-degree adjustment lies in `[-180, 180]`. -/
theorem bearing_and_relative_angle_range :
    (∀ lat1 lon1 lat2 lon2 : ℝ,
      getBearing lat1 lon1 lat2 lon2 ∈ Set.Ico (0 : ℝ) 360) ∧
    (∀ b h : ℝ, b ∈ Set.Ico (0 : ℝ) 360 → h ∈ Set.Icc (0 : ℝ) 360 →
      relativeAngleR b h ∈ Set.Icc (-180 : ℝ) 180) := by
  constructor
  · intro lat1 lon1 lat2 lon2
    have key : ∀ y x : ℝ, 0 ≤ atan2 y x * 180 / Real.pi + 360 := by
      intro y x
      have hth := atan2_gt_neg_pi y x
      have hpi := Real.pi_pos
      have h180 : (-180 : ℝ) < atan2 y x * 180 / Real.pi := by
        rw [lt_div_iff₀ hpi]
        nlinarith
      linarith
    simp only [getBearing]
    exact jsMod_nonneg_mem _ (key _ _)
  · intro b h hb hh
    rw [Set.mem_Ico] at hb
    rw [Set.mem_Icc] at hh
    simp only [relativeAngleR]
    split_ifs with h1 h2 h3 <;> rw [Set.mem_Icc] <;> constructor <;> linarith

/-- Witness for C8: the bearing of the degenerate coordinate pair lies in
`[0, 360)` and feeding it to the relative-angle normalisation with
heading 0 lands in `[-180, 180]`. -/
theorem bearing_and_relative_angle_range_witness :
    relativeAngleR (getBearing 0 0 0 0) 0 ∈ Set.Icc (-180 : ℝ) 180 :=
  bearing_and_relative_angle_range.2 _ 0
    (bearing_and_relative_angle_range.1 0 0 0 0)
    (Set.mem_Icc.2 ⟨le_refl 0, by simp⟩)

/-! ## Decision-processor state lemmas -/

theorem findPending_mem {db : List PendingApproval} {token : String} {now : Int}
    {ap : PendingApproval} (h : findPending db token now = some ap) : ap ∈ db := by
  unfold findPending at h
  exact List.mem_of_find?_eq_some h

theorem findPending_pending {db : List PendingApproval} {token : String} {now : Int}
    {ap : PendingApproval} (h : findPending db token now = some ap) :
    ap.status = "pending" := by
  unfold findPending at h
  have hp := List.find?_some h
  simp only [Bool.and_eq_true, beq_iff_eq, decide_eq_true_eq] at hp
  exact hp.1.2

theorem updated_id (ap : PendingApproval) (ns : String) (r : PendingApproval) :
    (if r.id == ap.id then { r with status := ns } else r).id = r.id := by
  split <;> rfl

theorem decisionHandler_db_cases (db : List PendingApproval) (ents : List EntityRow)
    (rl : List Int) (token action : String) (now : Int) (apOk entOk : Bool) :
    (decisionHandler db ents rl token action now apOk entOk).db = db ∨
    ∃ ap, ap ∈ db ∧ ap.status = "pending" ∧
      (decisionHandler db ents rl token action now apOk entOk).db =
        db.map (fun r => if r.id == ap.id then
          { r with status := if action == "approve" then "approved" else "rejected" }
          else r) := by
  simp only [decisionHandler]
  by_cases hg : (checkRateLimit rl now).1 = false
  · rw [if_pos hg]
    exact Or.inl rfl
  · rw [if_neg hg]
    by_cases hv : validateInput token action = false
    · rw [if_pos hv]
      exact Or.inl rfl
    · rw [if_neg hv]
      unfold processDecision
      cases hf : findPending db token now with
      | none =>
        left
        simp [hf]
      | some ap =>
        cases apOk with
        | false =>
          left
          simp [hf]
        | true =>
          cases entOk with
          | false =>
            exact Or.inr ⟨ap, findPending_mem hf, findPending_pending hf, by simp [hf]⟩
          | true =>
            exact Or.inr ⟨ap, findPending_mem hf, findPending_pending hf, by simp [hf]⟩

theorem stepDecision_db (st : DecisionState) (q : DecisionReq) :
    (stepDecision st q).db =
      (decisionHandler st.db st.ents st.rl q.token q.action q.now q.apOk q.entOk).db := rfl

theorem stepDecision_preserves_decided (st : DecisionState) (q : DecisionReq)
    (hids : ∀ a ∈ st.db, ∀ b ∈ st.db, a.id = b.id → a = b)
    (r : PendingApproval) (hr : r ∈ st.db)
    (hdec : r.status = "approved" ∨ r.status = "rejected") :
    r ∈ (stepDecision st q).db := by
  rcases decisionHandler_db_cases st.db st.ents st.rl q.token q.action q.now q.apOk q.entOk
    with h | ⟨ap, hap, hps, h⟩ <;> rw [stepDecision_db, h]
  · exact hr
  · have hne : (r.id == ap.id) = false := by
      rw [beq_eq_false_iff_ne]
      intro hid
      have heq : r = ap := hids r hr ap hap hid
      rcases hdec with hd | hd <;> rw [heq, hps] at hd <;> exact absurd hd (by decide)
    refine List.mem_map.2 ⟨r, hr, ?_⟩
    simp [hne]

theorem stepDecision_unique_ids (st : DecisionState) (q : DecisionReq)
    (hids : ∀ a ∈ st.db, ∀ b ∈ st.db, a.id = b.id → a = b) :
    ∀ a ∈ (stepDecision st q).db, ∀ b ∈ (stepDecision st q).db, a.id = b.id → a = b := by
  rcases decisionHandler_db_cases st.db st.ents st.rl q.token q.action q.now q.apOk q.entOk
    with h | ⟨ap, hap, hps, h⟩ <;> rw [stepDecision_db, h]
  · exact hids
  · intro a ha b hb hab
    rcases List.mem_map.1 ha with ⟨a0, ha0, rfl⟩
    rcases List.mem_map.1 hb with ⟨b0, hb0, rfl⟩
    rw [updated_id, updated_id] at hab
    rw [hids a0 ha0 b0 hb0 hab]

theorem stepDecision_new_rows (st : DecisionState) (q : DecisionReq) :
    ∀ r' ∈ (stepDecision st q).db,
      r' ∈ st.db ∨ r'.status = "approved" ∨ r'.status = "rejected" := by
  intro r' hr'
  rcases decisionHandler_db_cases st.db st.ents st.rl q.token q.action q.now q.apOk q.entOk
    with h | ⟨ap, hap, hps, h⟩ <;> rw [stepDecision_db, h] at hr'
  · exact Or.inl hr'
  · rcases List.mem_map.1 hr' with ⟨r0, hr0, rfl⟩
    cases hid : (r0.id == ap.id) with
    | false =>
      left
      simpa [hid] using hr0
    | true =>
      right
      cases hact : q.action == "approve" with
      | false =>
        right
        simp [hid, hact]
      | true =>
        left
        simp [hid, hact]

/-- C1: a `pending_approvals` row that is already decided (approved or
rejected) is never matched or mutated again: under any sequence of
decision-processor invocations it stays in the table unchanged, and any
row the processor does change only ever moves to approved or rejected. -/
theorem tokens_single_use :
    ∀ (reqs : List DecisionReq) (st : DecisionState),
      (∀ a ∈ st.db, ∀ b ∈ st.db, a.id = b.id → a = b) →
      ∀ r ∈ st.db, r.status = "approved" ∨ r.status = "rejected" →
      r ∈ (runDecisions st reqs).db ∧
        ∀ r' ∈ (runDecisions st reqs).db,
          r' ∈ st.db ∨ r'.status = "approved" ∨ r'.status = "rejected" := by
  intro reqs
  induction reqs with
  | nil =>
    intro st hids r hr hdec
    exact ⟨hr, fun r' hr' => Or.inl hr'⟩
  | cons q rest ih =>
    intro st hids r hr hdec
    have h1 := stepDecision_preserves_decided st q hids r hr hdec
    have h2 := stepDecision_unique_ids st q hids
    obtain ⟨ha, hb⟩ := ih (stepDecision st q) h2 r h1 hdec
    refine ⟨ha, fun r' hr' => ?_⟩
    rcases hb r' hr' with h | h
    · exact stepDecision_new_rows st q r' h
    · exact Or.inr h

/-- Witness for C1: an already-approved row survives a further decision
request carrying its own token, unchanged. -/
theorem tokens_single_use_witness :
    (⟨1, "club", "item-1", "user-1", "f@x.co",
        "123e4567-e89b-12d3-a456-426614174000", "approved", 0⟩ : PendingApproval) ∈
      (runDecisions
        ⟨[⟨1, "club", "item-1", "user-1", "f@x.co",
            "123e4567-e89b-12d3-a456-426614174000", "approved", 0⟩], [], []⟩
        [⟨"123e4567-e89b-12d3-a456-426614174000", "approve", 5, true, true⟩]).db ∧
    ∀ r' ∈ (runDecisions
        ⟨[⟨1, "club", "item-1", "user-1", "f@x.co",
            "123e4567-e89b-12d3-a456-426614174000", "approved", 0⟩], [], []⟩
        [⟨"123e4567-e89b-12d3-a456-426614174000", "approve", 5, true, true⟩]).db,
      r' ∈ [⟨1, "club", "item-1", "user-1", "f@x.co",
          "123e4567-e89b-12d3-a456-426614174000", "approved", 0⟩] ∨
        r'.status = "approved" ∨ r'.status = "rejected" :=
  tokens_single_use
    [⟨"123e4567-e89b-12d3-a456-426614174000", "approve", 5, true, true⟩]
    ⟨[⟨1, "club", "item-1", "user-1", "f@x.co",
        "123e4567-e89b-12d3-a456-426614174000", "approved", 0⟩], [], []⟩
    (by decide)
    ⟨1, "club", "item-1", "user-1", "f@x.co",
      "123e4567-e89b-12d3-a456-426614174000", "approved", 0⟩
    (by decide) (by decide)

theorem decisionHandler_notFound (db : List PendingApproval) (ents : List EntityRow)
    (rl : List Int) (token action : String) (now : Int) (apOk entOk : Bool)
    (hrl : (checkRateLimit rl now).1 = true)
    (hval : validateInput token action = true)
    (hf : findPending db token now = none) :
    decisionHandler db ents rl token action now apOk entOk =
      ⟨notFoundResp, db, ents, (checkRateLimit rl now).2⟩ := by
  simp [decisionHandler, processDecision, hrl, hval, hf]

/-- C2: for a decision request that passes rate limiting and validation,
a token carried by no row, a token whose rows are all already decided,
and a token whose rows are all older than 30 days produce one and the
same response: status 400 with the single generic body. -/
theorem decision_error_indistinguishable
    (db₁ db₂ db₃ : List PendingApproval) (ents : List EntityRow) (rl : List Int)
    (token action : String) (now : Int) (apOk entOk : Bool)
    (hrl : (checkRateLimit rl now).1 = true)
    (hval : validateInput token action = true)
    (h₁ : ∀ r ∈ db₁, r.approval_token ≠ token)
    (h₂ : ∀ r ∈ db₂, r.approval_token = token →
        r.status = "approved" ∨ r.status = "rejected")
    (h₃ : ∀ r ∈ db₃, r.approval_token = token →
        r.created_at < now - THIRTY_DAYS_MS) :
    (decisionHandler db₁ ents rl token action now apOk entOk).resp = notFoundResp ∧
    (decisionHandler db₂ ents rl token action now apOk entOk).resp = notFoundResp ∧
    (decisionHandler db₃ ents rl token action now apOk entOk).resp = notFoundResp := by
  have hf₁ : findPending db₁ token now = none := by
    unfold findPending
    rw [List.find?_eq_none]
    intro r hr
    simp only [Bool.and_eq_true, beq_iff_eq, decide_eq_true_eq]
    intro hc
    exact h₁ r hr hc.1.1
  have hf₂ : findPending db₂ token now = none := by
    unfold findPending
    rw [List.find?_eq_none]
    intro r hr
    simp only [Bool.and_eq_true, beq_iff_eq, decide_eq_true_eq]
    intro hc
    rcases h₂ r hr hc.1.1 with hs | hs <;> rw [hc.1.2] at hs <;>
      exact absurd hs (by decide)
  have hf₃ : findPending db₃ token now = none := by
    unfold findPending
    rw [List.find?_eq_none]
    intro r hr
    simp only [Bool.and_eq_true, beq_iff_eq, decide_eq_true_eq]
    intro hc
    have := h₃ r hr hc.1.1
    omega
  refine ⟨?_, ?_, ?_⟩
  · rw [decisionHandler_notFound db₁ ents rl token action now apOk entOk hrl hval hf₁]
  · rw [decisionHandler_notFound db₂ ents rl token action now apOk entOk hrl hval hf₂]
  · rw [decisionHandler_notFound db₃ ents rl token action now apOk entOk hrl hval hf₃]

/-- Witness for C2 at concrete states: a table holding only a foreign
token, a table whose row with the token is already approved, and a table
whose row with the token is 30 days and 1 millisecond old all answer with
the generic not-found response. -/
theorem decision_error_indistinguishable_witness :
    (decisionHandler
        [⟨1, "club", "i1", "u", "f@x.co", "aaaaaaaa-aaaa-aaaa-aaaa-aaaaaaaaaaaa",
          "pending", 2592000000⟩] [] []
        "123e4567-e89b-12d3-a456-426614174000" "approve" 2592000001 true true).resp =
      notFoundResp ∧
    (decisionHandler
        [⟨2, "club", "i2", "u", "f@x.co", "123e4567-e89b-12d3-a456-426614174000",
          "approved", 2592000000⟩] [] []
        "123e4567-e89b-12d3-a456-426614174000" "approve" 2592000001 true true).resp =
      notFoundResp ∧
    (decisionHandler
        [⟨3, "club", "i3", "u", "f@x.co", "123e4567-e89b-12d3-a456-426614174000",
          "pending", 0⟩] [] []
        "123e4567-e89b-12d3-a456-426614174000" "approve" 2592000001 true true).resp =
      notFoundResp :=
  decision_error_indistinguishable
    [⟨1, "club", "i1", "u", "f@x.co", "aaaaaaaa-aaaa-aaaa-aaaa-aaaaaaaaaaaa",
      "pending", 2592000000⟩]
    [⟨2, "club", "i2", "u", "f@x.co", "123e4567-e89b-12d3-a456-426614174000",
      "approved", 2592000000⟩]
    [⟨3, "club", "i3", "u", "f@x.co", "123e4567-e89b-12d3-a456-426614174000",
      "pending", 0⟩]
    [] [] "123e4567-e89b-12d3-a456-426614174000" "approve" 2592000001 true true
    (by decide) (by decide) (by decide) (by decide) (by decide)

/-- C3: with a live row matched, a failed `pending_approvals` write makes
the handler answer the 500 failure and touch neither table (for either
outcome of the would-be second write); a successful first write followed
by a failed entity write leaves the decided `pending_approvals` row in
place while the entity tables are untouched, again answering 500. -/
theorem decision_dual_write_failures
    (db : List PendingApproval) (ents : List EntityRow) (token action : String)
    (now : Int) (ap : PendingApproval)
    (hf : findPending db token now = some ap) :
    (∀ entOk, processDecision db ents token action now false entOk =
        ⟨processingFailedResp, db, ents⟩) ∧
    (processDecision db ents token action now true false =
        ⟨processingFailedResp,
          db.map (fun r => if r.id == ap.id then
            { r with status := if action == "approve" then "approved" else "rejected" }
            else r),
          ents⟩) ∧
    ({ ap with status := if action == "approve" then "approved" else "rejected" } ∈
        (processDecision db ents token action now true false).db) := by
  have hmem := findPending_mem hf
  refine ⟨fun entOk => ?_, ?_, ?_⟩
  · simp [processDecision, hf]
  · simp [processDecision, hf]
  · simp only [processDecision, hf]
    refine List.mem_map.2 ⟨ap, hmem, ?_⟩
    simp

/-- Witness for C3: against a single live row, a failed first write
returns 500 and changes nothing; a successful first write with a failed
second write leaves the row decided in the `pending_approvals` table. -/
theorem decision_dual_write_failures_witness :
    processDecision
        [⟨1, "club", "item-1", "user-1", "f@x.co",
          "123e4567-e89b-12d3-a456-426614174000", "pending", 0⟩] []
        "123e4567-e89b-12d3-a456-426614174000" "approve" 5 false true =
      ⟨processingFailedResp,
        [⟨1, "club", "item-1", "user-1", "f@x.co",
          "123e4567-e89b-12d3-a456-426614174000", "pending", 0⟩], []⟩ ∧
    (⟨1, "club", "item-1", "user-1", "f@x.co",
        "123e4567-e89b-12d3-a456-426614174000", "approved", 0⟩ : PendingApproval) ∈
      (processDecision
        [⟨1, "club", "item-1", "user-1", "f@x.co",
          "123e4567-e89b-12d3-a456-426614174000", "pending", 0⟩] []
        "123e4567-e89b-12d3-a456-426614174000" "approve" 5 true false).db :=
  ⟨(decision_dual_write_failures
      [⟨1, "club", "item-1", "user-1", "f@x.co",
        "123e4567-e89b-12d3-a456-426614174000", "pending", 0⟩] []
      "123e4567-e89b-12d3-a456-426614174000" "approve" 5
      ⟨1, "club", "item-1", "user-1", "f@x.co",
        "123e4567-e89b-12d3-a456-426614174000", "pending", 0⟩ (by decide)).1 true,
    (decision_dual_write_failures
      [⟨1, "club", "item-1", "user-1", "f@x.co",
        "123e4567-e89b-12d3-a456-426614174000", "pending", 0⟩] []
      "123e4567-e89b-12d3-a456-426614174000" "approve" 5
      ⟨1, "club", "item-1", "user-1", "f@x.co",
        "123e4567-e89b-12d3-a456-426614174000", "pending", 0⟩ (by decide)).2.2⟩

/-! ## Issuer properties -/

/-- C4: for a valid, authenticated issuer request, a failed
pending-approval insert aborts with the 500 failure before any email is
composed or sent; a failed entity update is tolerated: the handler still
composes the reviewer email and answers 200 success. -/
theorem issuer_partial_failure_policy
    (input : IssuerInput) (uid : String) (tok : String) (origin : Option String)
    (now : Int) (newId : Nat)
    (hval : validateApprovalEmailInput input = true) :
    (∀ updateOk,
      sendApprovalEmailHandler input (some uid) tok false updateOk origin now newId =
        ⟨issuerFailedResp, none, false, none⟩) ∧
    ((sendApprovalEmailHandler input (some uid) tok true false origin now newId).resp =
        ⟨200, .ok none⟩ ∧
      (sendApprovalEmailHandler input (some uid) tok true false origin now newId).emailBody =
        some (emailHtml input.itemType input.itemName input.submitterName
          input.submitterEmail input.description (origin.getD DEFAULT_BASE_URL) tok) ∧
      (sendApprovalEmailHandler input (some uid) tok true false
          origin now newId).entityUpdated = false) := by
  refine ⟨fun updateOk => ?_, ?_, ?_, ?_⟩ <;>
    simp [sendApprovalEmailHandler, hval]

/-- Witness for C4 on a concrete valid submission: the insert failure
answers the 500 failure with no email, and the tolerated update failure
still answers 200. -/
theorem issuer_partial_failure_policy_witness :
    sendApprovalEmailHandler
        ⟨"club", "123e4567-e89b-12d3-a456-426614174000", "Chess Club", "Alice",
          "alice@mits.in", "fac@mits.in", none⟩
        (some "user-1") "aaaaaaaa-aaaa-aaaa-aaaa-aaaaaaaaaaaa" false true
        (some "https://portal.example") 0 1 =
      ⟨issuerFailedResp, none, false, none⟩ ∧
    (sendApprovalEmailHandler
        ⟨"club", "123e4567-e89b-12d3-a456-426614174000", "Chess Club", "Alice",
          "alice@mits.in", "fac@mits.in", none⟩
        (some "user-1") "aaaaaaaa-aaaa-aaaa-aaaa-aaaaaaaaaaaa" true false
        (some "https://portal.example") 0 1).resp = ⟨200, .ok none⟩ :=
  ⟨(issuer_partial_failure_policy
      ⟨"club", "123e4567-e89b-12d3-a456-426614174000", "Chess Club", "Alice",
        "alice@mits.in", "fac@mits.in", none⟩
      "user-1" "aaaaaaaa-aaaa-aaaa-aaaa-aaaaaaaaaaaa"
      (some "https://portal.example") 0 1 (by decide)).1 true,
    (issuer_partial_failure_policy
      ⟨"club", "123e4567-e89b-12d3-a456-426614174000", "Chess Club", "Alice",
        "alice@mits.in", "fac@mits.in", none⟩
      "user-1" "aaaaaaaa-aaaa-aaaa-aaaa-aaaaaaaaaaaa"
      (some "https://portal.example") 0 1 (by decide)).2.1⟩

/-- C10: the issuer rejects an invalid body with the generic 400 response
no matter what the credential resolves to, and it answers 401 only when
the body has already passed validation (and no caller was resolved). -/
theorem issuer_validates_before_auth
    (input : IssuerInput) (userId : Option String) (tok : String)
    (insertOk updateOk : Bool) (origin : Option String) (now : Int) (newId : Nat) :
    (validateApprovalEmailInput input = false →
      sendApprovalEmailHandler input userId tok insertOk updateOk origin now newId =
        ⟨issuerInvalidResp, none, false, none⟩) ∧
    ((sendApprovalEmailHandler input userId tok insertOk updateOk origin now newId).resp =
        unauthorizedResp →
      validateApprovalEmailInput input = true ∧ userId = none) := by
  constructor
  · intro hval
    simp [sendApprovalEmailHandler, hval]
  · intro hresp
    by_cases hval : validateApprovalEmailInput input = false
    · have hbad : (sendApprovalEmailHandler input userId tok insertOk updateOk
          origin now newId).resp = issuerInvalidResp := by
        simp [sendApprovalEmailHandler, hval]
      rw [hbad] at hresp
      exact absurd hresp (by decide)
    · have hval' : validateApprovalEmailInput input = true := by
        cases hv : validateApprovalEmailInput input
        · exact absurd hv hval
        · rfl
      refine ⟨hval', ?_⟩
      cases userId with
      | none => rfl
      | some uid =>
        exfalso
        cases hins : insertOk with
        | false =>
          subst hins
          have hbad : (sendApprovalEmailHandler input (some uid) tok false updateOk
              origin now newId).resp = issuerFailedResp := by
            simp [sendApprovalEmailHandler, hval']
          rw [hbad] at hresp
          exact absurd hresp (by decide)
        | true =>
          subst hins
          have hbad : (sendApprovalEmailHandler input (some uid) tok true updateOk
              origin now newId).resp = ⟨200, .ok none⟩ := by
            simp [sendApprovalEmailHandler, hval']
          rw [hbad] at hresp
          exact absurd hresp (by decide)

/-- Witness for C10: a body with an empty item name and no resolved
caller identity gets the 400 validation response, not 401. -/
theorem issuer_validates_before_auth_witness :
    sendApprovalEmailHandler
        ⟨"club", "123e4567-e89b-12d3-a456-426614174000", "", "Alice",
          "alice@mits.in", "fac@mits.in", none⟩
        none "aaaaaaaa-aaaa-aaaa-aaaa-aaaaaaaaaaaa" true true none 0 1 =
      ⟨issuerInvalidResp, none, false, none⟩ :=
  (issuer_validates_before_auth
    ⟨"club", "123e4567-e89b-12d3-a456-426614174000", "", "Alice",
      "alice@mits.in", "fac@mits.in", none⟩
    none "aaaaaaaa-aaaa-aaaa-aaaa-aaaaaaaaaaaa" true true none 0 1).1 (by decide)

/-- Witness for C6: the sanitiser applied to a lone angle bracket yields
exactly its entity expansion. -/
theorem email_html_escaping_witness :
    sanitizeForHtml "<script>".data = ("<script>".data.map entityOf).flatten :=
  email_html_escaping.1 "<script>".data
